import Mathlib

/-!
Shallow embedding of the FRHEED live plot-routing and settings-persistence
code, for checking the specification's claims against the source.

Embedded source functions:
* `snip_lists`                — src/frheed/utils.py, `snip_lists`
* `plot_data`                 — src/FRHEED/widgets/rheed_widgets.py, `RHEEDWidget.plot_data`
* `remove_line`               — src/FRHEED/widgets/rheed_widgets.py, `RHEEDWidget.remove_line`
* `save_settings`             — src/frheed/utils.py, `save_settings`
* `load_settings` / `convert_setting` — src/frheed/utils.py, `load_settings`

Numeric sample values (Python floats) are modelled as exact rationals `ℚ`;
none of the embedded code performs arithmetic on them, it only moves them
around, so the only property used is decidable equality.
-/

namespace FRHEED

/-- Sample values carried in the plot series (Python floats), modelled as ℚ. -/
abbrev Q := ℚ

/-- Python scalar values that occur in the settings layer: the supported
setting types bool/int/float/str plus `None` (a possible `literal_eval`
result). -/
inductive PyVal where
  | bool (b : Bool)
  | int (n : Int)
  | float (q : Q)
  | str (s : String)
  | pynone
deriving DecidableEq, Repr

/-- Python exceptions that the embedded code can raise or catch.
`stxError` stands for Python's SyntaxError. -/
inductive PyErr where
  | runtimeError
  | indexError
  | keyError
  | valueError
  | stxError
deriving DecidableEq, Repr

/-! ### Association-list model of Python dicts

Python dicts preserve insertion order; we model them as association lists.
`getEntry` is `d.get(k)` / `k in d`, `setEntry` is `d[k] = v`
(replace in place if present, append otherwise), `dropEntry` is the
removal performed by `d.pop(k)` (the KeyError on a missing key is handled
at each call site, mirroring the source). -/

def getEntry {β : Type} (k : String) : List (String × β) → Option β
  | [] => none
  | (k2, v) :: rest => if k2 = k then some v else getEntry k rest

def setEntry {β : Type} (k : String) (v : β) : List (String × β) → List (String × β)
  | [] => [(k, v)]
  | (k2, v2) :: rest => if k2 = k then (k, v) :: rest else (k2, v2) :: setEntry k v rest

def dropEntry {β : Type} (k : String) : List (String × β) → List (String × β)
  | [] => []
  | (k2, v2) :: rest => if k2 = k then rest else (k2, v2) :: dropEntry k rest

/-! ### `snip_lists` (src/frheed/utils.py)

```
def snip_lists(*lists) -> list:
    min_len = min(map(len, lists))
    return [L[:min_len] for L in lists]
```
`py_min` is Python's `min` on a sequence of naturals (raising on an empty
sequence, hence the `Option`). -/

def py_min (xs : List Nat) : Option Nat :=
  match xs with
  | [] => none
  | x :: rest => some (rest.foldl Nat.min x)

def snip_lists (lists : List (List Q)) : List (List Q) :=
  match py_min (lists.map List.length) with
  | some min_len => lists.map (fun L => L.take min_len)
  | none => []

/-- The two-list call shape `snip_lists(time, average)` used by `plot_data`,
returned as the pair of positional arguments handed to `curve.setData`. -/
def snipped (t a : List Q) : List Q × List Q :=
  match snip_lists [t, a] with
  | [t2, a2] => (t2, a2)
  | _ => ([], [])

/-! ### The frame batch and routing state -/

/-- Modelled from the spec: the per-channel result record of a FrameBatch
(produced by the analysis worker in `camera_widget.py`, which is not part
of the excerpt): `{kind, time: seq<float>, average: seq<float>}` for region
records and `{kind, y: seq<seq<float>>}` for line records. The record is
modelled with all fields present; `plot_data` only reads the fields
belonging to the matched kind, exactly as the source subscripts do. -/
structure ChannelRecord where
  kind : String
  time : List Q
  average : List Q
  y : List (List Q)
deriving DecidableEq, Repr

/-- The mutable state visible to `plot_data` / `remove_line`:
* `region_curves` — `region_plot.plot_items`, key ↦ the (x, y) data the
  curve currently displays;
* `profile_curves` — `profile_plot.plot_items`, key ↦ displayed profile;
* `dead` — keys whose underlying Qt curve object has been destroyed, so
  that `curve.setData` raises RuntimeError (the race the source guards
  with `try/except RuntimeError`);
* `registry` — `camera_widget.analysis_worker.data`, the per-channel data
  mapping;
* `log` — the messages logged by the embedded operations (none of the
  embedded source functions logs anything, so no operation appends here).
The curve mappings and the registry live in `plot_widgets.py` and
`camera_widget.py`, which are outside the excerpt; they are modelled from
the spec as mappings from channel key to curve data / channel record. -/
structure PlotState where
  region_curves : List (String × (List Q × List Q))
  profile_curves : List (String × List Q)
  dead : List String
  registry : List (String × ChannelRecord)
  log : List String
deriving DecidableEq, Repr

/-- One `curve.setData` invocation recorded during routing: which sink's
curve was handed data, for which channel key, and the data handed over.
The invocation is recorded even when the curve is stale (the call is made
and raises inside). -/
inductive SinkCall where
  | region (key : String) (data : List Q × List Q)
  | profile (key : String) (data : List Q)
deriving DecidableEq, Repr

/-- The channel key a `SinkCall` is addressed to. -/
def callKey : SinkCall → String
  | SinkCall.region k _ => k
  | SinkCall.profile k _ => k

/-- Modelled from the spec: `PlotWidget.add_curve` (in `plot_widgets.py`,
not part of the excerpt) — "creating a curve for an already-present key
returns the existing handle (idempotent registration)"; a fresh curve
starts with no data. -/
def add_curve_region (c : String) (st : PlotState) : PlotState :=
  match getEntry c st.region_curves with
  | some _ => st
  | none => { st with region_curves := setEntry c ([], []) st.region_curves }

/-- Modelled from the spec: `PlotWidget.add_curve` for the profile plot;
see `add_curve_region`. -/
def add_curve_profile (c : String) (st : PlotState) : PlotState :=
  match getEntry c st.profile_curves with
  | some _ => st
  | none => { st with profile_curves := setEntry c [] st.profile_curves }

/-- Result of one `plot_data` slot invocation: the state after the call,
the `setData` calls made (in order), and the exception propagated out of
the slot, if any. -/
structure RouteResult where
  state : PlotState
  calls : List SinkCall
  err : Option PyErr
deriving DecidableEq, Repr

/-- `RHEEDWidget.plot_data` (src/FRHEED/widgets/rheed_widgets.py):

```
for color, color_data in data.items():
    if color_data["kind"] in ["rectangle", "ellipse"]:
        curve = self.region_plot.add_curve(color)
        try:
            curve.setData(*snip_lists(color_data["time"], color_data["average"]))
        except RuntimeError:
            pass
    elif color_data["kind"] == "line":
        curve = self.profile_plot.add_curve(color)
        try:
            curve.setData(color_data["y"][-1])
        except RuntimeError:
            pass
```
The batch is the dict's items in insertion order.  `curve.setData(d)` on a
live curve replaces that curve's displayed data with `d`; on a destroyed
curve (key in `dead`) it raises RuntimeError, which the source catches and
ignores.  In the line branch, `color_data["y"][-1]` on an empty history
raises IndexError inside the `try`, which catches only RuntimeError, so
the IndexError propagates and aborts the slot. -/
def plot_data : PlotState → List (String × ChannelRecord) → RouteResult
  | st, [] => ⟨st, [], none⟩
  | st, (color, r) :: rest =>
    if r.kind = "rectangle" ∨ r.kind = "ellipse" then
      let st1 := add_curve_region color st
      let d := snipped r.time r.average
      let st2 := if color ∈ st1.dead then st1
        else { st1 with region_curves := setEntry color d st1.region_curves }
      let res := plot_data st2 rest
      ⟨res.state, SinkCall.region color d :: res.calls, res.err⟩
    else if r.kind = "line" then
      let st1 := add_curve_profile color st
      match r.y.getLast? with
      | none => ⟨st1, [], some PyErr.indexError⟩
      | some v =>
        let st2 := if color ∈ st1.dead then st1
          else { st1 with profile_curves := setEntry color v st1.profile_curves }
        let res := plot_data st2 rest
        ⟨res.state, SinkCall.profile color v :: res.calls, res.err⟩
    else
      plot_data st rest

/-- `RHEEDWidget.remove_line` (src/FRHEED/widgets/rheed_widgets.py):

```
plot = self.profile_plot if shape.kind == "line" else self.region_plot
plot.plot_widget.removeItem(plot.plot_items.pop(shape.color_name))
self.camera_widget.analysis_worker.data.pop(shape.color_name)
```
`dict.pop(key)` with no default raises KeyError when the key is absent;
the raise aborts the slot at that point, leaving earlier mutations in
place.  `removeItem` is a rendering-layer call with no further effect on
the modelled state. -/
def remove_line (st : PlotState) (kind color : String) : PlotState × Option PyErr :=
  if kind = "line" then
    match getEntry color st.profile_curves with
    | none => (st, some PyErr.keyError)
    | some _ =>
      let st1 := { st with profile_curves := dropEntry color st.profile_curves }
      match getEntry color st1.registry with
      | none => (st1, some PyErr.keyError)
      | some _ => ({ st1 with registry := dropEntry color st1.registry }, none)
  else
    match getEntry color st.region_curves with
    | none => (st, some PyErr.keyError)
    | some _ =>
      let st1 := { st with region_curves := dropEntry color st.region_curves }
      match getEntry color st1.registry with
      | none => (st1, some PyErr.keyError)
      | some _ => ({ st1 with registry := dropEntry color st1.registry }, none)

/-- The `setData` calls `plot_data` makes for a single batch entry: one
region-sink call with the snipped pair for a region kind, one profile-sink
call with the last profile vector for a line kind (none when the history
is empty — the subscript raises first), and none otherwise. -/
def expectedCalls (c : String) (r : ChannelRecord) : List SinkCall :=
  if r.kind = "rectangle" ∨ r.kind = "ellipse" then
    [SinkCall.region c (snipped r.time r.average)]
  else if r.kind = "line" then
    match r.y.getLast? with
    | some v => [SinkCall.profile c v]
    | none => []
  else []

/-! ### Settings persistence (src/frheed/utils.py) -/

/-- `type(value).__name__` for the values of the settings layer. -/
def type_name : PyVal → String
  | PyVal.bool _ => "bool"
  | PyVal.int _ => "int"
  | PyVal.float _ => "float"
  | PyVal.str _ => "str"
  | PyVal.pynone => "NoneType"

/-- Result of Python's `ast.literal_eval` on a string: a value, a
ValueError (malformed node, e.g. a bare name), or a SyntaxError (the
string does not even parse, e.g. `"a b"`). -/
inductive LitResult where
  | ok (v : PyVal)
  | valueError
  | stxError
deriving DecidableEq, Repr

/-- Digit list to the natural number it denotes (most significant first). -/
def digitsToNat (cs : List Char) : Nat :=
  cs.foldl (fun n c => 10 * n + (c.toNat - Char.toNat '0')) 0

/-- Nonempty and all decimal digits. -/
def isDigitList (cs : List Char) : Bool :=
  !cs.isEmpty && cs.all Char.isDigit

/-- Split a character list on a separator character. -/
def splitOnChar (sep : Char) (cs : List Char) : List (List Char) :=
  cs.foldr
    (fun c acc =>
      match acc with
      | [] => [[c]]
      | g :: gs => if c = sep then [] :: (g :: gs) else (c :: g) :: gs)
    [[]]

/-- Parse the unsigned part of a numeric literal: a decimal integer or a
`digits.digits` float, with `neg` the sign carried by the caller. -/
def parseNumeric (neg : Bool) (core : List Char) : Option PyVal :=
  if isDigitList core then
    some (PyVal.int (if neg then -(digitsToNat core : Int) else (digitsToNat core : Int)))
  else
    match splitOnChar '.' core with
    | [a, b] =>
      if isDigitList a && isDigitList b then
        let q : Q := (digitsToNat a : Q) + (digitsToNat b : Q) / (10 : Q) ^ b.length
        some (PyVal.float (if neg then -q else q))
      else none
    | _ => none

/-- A string that parses as a bare Python identifier (a `Name` node). -/
def isNameList (cs : List Char) : Bool :=
  match cs with
  | [] => false
  | c :: rest =>
    (c.isAlpha || c = '_') && rest.all (fun d => d.isAlphanum || d = '_')

/-- Model of Python's `ast.literal_eval` (stdlib, an external collaborator
of `load_settings`) on the scalar fragment relevant here: the constants
`True`/`False`/`None`, decimal integer literals, and `digits.digits`
float literals evaluate to the corresponding value; a bare identifier
compiles to a `Name` node, which `literal_eval` rejects with ValueError
("malformed node or string"); anything else in this fragment fails to
compile and raises SyntaxError (e.g. `literal_eval("a b")`).  Container,
exponent and quoted-string literals are outside the fragment this model
covers; no claim is settled on them. -/
def literal_eval (s : String) : LitResult :=
  if s = "True" then LitResult.ok (PyVal.bool true)
  else if s = "False" then LitResult.ok (PyVal.bool false)
  else if s = "None" then LitResult.ok PyVal.pynone
  else
    let cs := s.data
    let neg : Bool := match cs with
      | c :: _ => c = '-'
      | [] => false
    let core := if neg then cs.tail else cs
    match parseNumeric neg core with
    | some v => LitResult.ok v
    | none => if isNameList cs then LitResult.valueError else LitResult.stxError

/-- A `LitResult` as the outcome of an uncaught `literal_eval` call:
parse failures propagate as exceptions. -/
def litToExcept : LitResult → Except PyErr PyVal
  | LitResult.ok v => Except.ok v
  | LitResult.valueError => Except.error PyErr.valueError
  | LitResult.stxError => Except.error PyErr.stxError

/-- The per-setting conversion loop body of `load_settings`
(src/frheed/utils.py):

```
string_value = info["value"]
type_ = info["type"]
if not isinstance(string_value, str):
    config[group_name][setting] = string_value
    continue
if type_ == "bool":
    value = literal_eval(string_value)
elif type_ in ["string", "str"]:
    value = string_value
elif type_ in ["float", "int"]:
    value = literal_eval(string_value)
else:
    try:
        value = literal_eval(string_value)
    except ValueError:
        value = string_value
```
Only the final branch guards `literal_eval`, and only against ValueError;
every other `literal_eval` failure propagates. -/
def convert_setting (v : PyVal) (t : String) : Except PyErr PyVal :=
  match v with
  | PyVal.str s =>
    if t = "bool" then litToExcept (literal_eval s)
    else if t = "string" ∨ t = "str" then Except.ok (PyVal.str s)
    else if t = "float" ∨ t = "int" then litToExcept (literal_eval s)
    else
      match literal_eval s with
      | LitResult.ok w => Except.ok w
      | LitResult.valueError => Except.ok (PyVal.str s)
      | LitResult.stxError => Except.error PyErr.stxError
  | w => Except.ok w

/-- A settings mapping: group name ↦ (setting name ↦ value). -/
abbrev Settings := List (String × List (String × PyVal))

/-- The on-disk configuration: group ↦ (setting ↦ {value, type}). -/
abbrev SavedConfig := List (String × List (String × (PyVal × String)))

/-- `save_settings` (src/frheed/utils.py): each leaf value is stored as
`{"value": value, "type": type(value).__name__}` and the whole structure
is written with `json.dump`.  The JSON text serialization between save and
load is modelled as the identity on this value space: Python's `json`
round-trips bool/int/str exactly and finite floats via shortest-repr
(floats are modelled as exact rationals; NaN/Infinity are outside the
model). -/
def save_settings (s : Settings) : SavedConfig :=
  s.map (fun g => (g.1, g.2.map (fun kv => (kv.1, (kv.2, type_name kv.2)))))

/-- The inner `for setting, info in setting_dict.items()` loop of
`load_settings`: convert each stored record in order; the first uncaught
exception aborts the load. -/
def load_group : List (String × (PyVal × String)) → Except PyErr (List (String × PyVal))
  | [] => Except.ok []
  | (k, info) :: rest =>
    match convert_setting info.1 info.2 with
    | Except.error e => Except.error e
    | Except.ok v =>
      match load_group rest with
      | Except.error e => Except.error e
      | Except.ok r => Except.ok ((k, v) :: r)

/-- `load_settings` (src/frheed/utils.py), applied to the decoded JSON
structure (see `save_settings` for the serialization model). -/
def load_settings : SavedConfig → Except PyErr Settings
  | [] => Except.ok []
  | (g, d) :: rest =>
    match load_group d with
    | Except.error e => Except.error e
    | Except.ok d2 =>
      match load_settings rest with
      | Except.error e => Except.error e
      | Except.ok r => Except.ok ((g, d2) :: r)

/-! ### Association-list lemmas -/

lemma getEntry_setEntry_self {β : Type} (k : String) (v : β) (m : List (String × β)) :
    getEntry k (setEntry k v m) = some v := by
  induction m with
  | nil => simp [getEntry, setEntry]
  | cons p rest ih =>
    obtain ⟨k2, v2⟩ := p
    by_cases h : k2 = k
    · simp [getEntry, setEntry, h]
    · simp [getEntry, setEntry, h, ih]

lemma getEntry_setEntry_other {β : Type} (k k2 : String) (v : β) (m : List (String × β))
    (h : k2 ≠ k) : getEntry k2 (setEntry k v m) = getEntry k2 m := by
  induction m with
  | nil => simp [getEntry, setEntry, if_neg (Ne.symm h)]
  | cons p rest ih =>
    obtain ⟨k3, v3⟩ := p
    by_cases h3 : k3 = k
    · subst h3
      simp [getEntry, setEntry, if_neg (Ne.symm h)]
    · simp only [setEntry, if_neg h3]
      by_cases h4 : k3 = k2
      · simp [getEntry, h4]
      · simp [getEntry, h4, ih]

lemma getEntry_eq_none_of_not_mem {β : Type} (k : String) (m : List (String × β))
    (h : k ∉ m.map Prod.fst) : getEntry k m = none := by
  induction m with
  | nil => simp [getEntry]
  | cons p rest ih =>
    obtain ⟨k2, v2⟩ := p
    simp only [List.map_cons, List.mem_cons] at h
    push_neg at h
    simp only [getEntry, if_neg (fun hh : k2 = k => h.1 hh.symm)]
    exact ih h.2

lemma getEntry_dropEntry_self {β : Type} (k : String) (m : List (String × β))
    (hnd : (m.map Prod.fst).Nodup) : getEntry k (dropEntry k m) = none := by
  induction m with
  | nil => simp [getEntry, dropEntry]
  | cons p rest ih =>
    obtain ⟨k2, v2⟩ := p
    simp only [List.map_cons, List.nodup_cons] at hnd
    by_cases h : k2 = k
    · subst h
      simp only [dropEntry, if_pos rfl]
      exact getEntry_eq_none_of_not_mem k2 rest hnd.1
    · simp only [dropEntry, if_neg h, getEntry, if_neg h]
      exact ih hnd.2

/-! ### Basic facts about the routing step -/

lemma snipped_eq (t a : List Q) :
    snipped t a
      = (t.take (min t.length a.length), a.take (min t.length a.length)) := rfl

@[simp] lemma add_curve_region_profile (c : String) (st : PlotState) :
    (add_curve_region c st).profile_curves = st.profile_curves := by
  unfold add_curve_region
  cases getEntry c st.region_curves <;> rfl

@[simp] lemma add_curve_region_dead (c : String) (st : PlotState) :
    (add_curve_region c st).dead = st.dead := by
  unfold add_curve_region
  cases getEntry c st.region_curves <;> rfl

@[simp] lemma add_curve_region_registry (c : String) (st : PlotState) :
    (add_curve_region c st).registry = st.registry := by
  unfold add_curve_region
  cases getEntry c st.region_curves <;> rfl

@[simp] lemma add_curve_region_log (c : String) (st : PlotState) :
    (add_curve_region c st).log = st.log := by
  unfold add_curve_region
  cases getEntry c st.region_curves <;> rfl

@[simp] lemma add_curve_profile_region (c : String) (st : PlotState) :
    (add_curve_profile c st).region_curves = st.region_curves := by
  unfold add_curve_profile
  cases getEntry c st.profile_curves <;> rfl

@[simp] lemma add_curve_profile_dead (c : String) (st : PlotState) :
    (add_curve_profile c st).dead = st.dead := by
  unfold add_curve_profile
  cases getEntry c st.profile_curves <;> rfl

@[simp] lemma add_curve_profile_registry (c : String) (st : PlotState) :
    (add_curve_profile c st).registry = st.registry := by
  unfold add_curve_profile
  cases getEntry c st.profile_curves <;> rfl

@[simp] lemma add_curve_profile_log (c : String) (st : PlotState) :
    (add_curve_profile c st).log = st.log := by
  unfold add_curve_profile
  cases getEntry c st.profile_curves <;> rfl

lemma add_curve_region_getEntry_other (c c2 : String) (st : PlotState) (h : c2 ≠ c) :
    getEntry c2 (add_curve_region c st).region_curves = getEntry c2 st.region_curves := by
  unfold add_curve_region
  cases getEntry c st.region_curves with
  | none => exact getEntry_setEntry_other c c2 _ _ h
  | some _ => rfl

lemma add_curve_profile_getEntry_other (c c2 : String) (st : PlotState) (h : c2 ≠ c) :
    getEntry c2 (add_curve_profile c st).profile_curves = getEntry c2 st.profile_curves := by
  unfold add_curve_profile
  cases getEntry c st.profile_curves with
  | none => exact getEntry_setEntry_other c c2 _ _ h
  | some _ => rfl

/-- Routing never touches the stale-key set, the analysis worker's data
mapping, or the log. -/
lemma plot_data_frame (st : PlotState) (b : List (String × ChannelRecord)) :
    (plot_data st b).state.dead = st.dead
    ∧ (plot_data st b).state.registry = st.registry
    ∧ (plot_data st b).state.log = st.log := by
  induction b generalizing st with
  | nil => exact ⟨rfl, rfl, rfl⟩
  | cons p rest ih =>
    obtain ⟨color, r⟩ := p
    by_cases hk1 : r.kind = "rectangle" ∨ r.kind = "ellipse"
    · simp only [plot_data, if_pos hk1]
      have h2 := ih
        (if color ∈ (add_curve_region color st).dead then add_curve_region color st
        else { add_curve_region color st with
               region_curves := setEntry color (snipped r.time r.average)
                 (add_curve_region color st).region_curves })
      refine ⟨h2.1.trans ?_, h2.2.1.trans ?_, h2.2.2.trans ?_⟩ <;>
        split <;> simp
    · by_cases hk2 : r.kind = "line"
      · simp only [plot_data, if_neg hk1, if_pos hk2]
        cases hy : r.y.getLast? with
        | none => simp
        | some v =>
          have h2 := ih
            (if color ∈ (add_curve_profile color st).dead then add_curve_profile color st
            else { add_curve_profile color st with
                   profile_curves := setEntry color v
                     (add_curve_profile color st).profile_curves })
          refine ⟨h2.1.trans ?_, h2.2.1.trans ?_, h2.2.2.trans ?_⟩ <;>
            split <;> simp
      · simp only [plot_data, if_neg hk1, if_neg hk2]
        exact ih st

/-- Routing a batch whose line records all carry a non-empty history
propagates no exception. -/
lemma plot_data_err_none (st : PlotState) (b : List (String × ChannelRecord))
    (h : ∀ p ∈ b, p.2.kind = "line" → p.2.y ≠ []) :
    (plot_data st b).err = none := by
  induction b generalizing st with
  | nil => rfl
  | cons p rest ih =>
    obtain ⟨color, r⟩ := p
    have hrest : ∀ q ∈ rest, q.2.kind = "line" → q.2.y ≠ [] :=
      fun q hq => h q (List.mem_cons_of_mem _ hq)
    by_cases hk1 : r.kind = "rectangle" ∨ r.kind = "ellipse"
    · simp only [plot_data, if_pos hk1]
      exact ih _ hrest
    · by_cases hk2 : r.kind = "line"
      · simp only [plot_data, if_neg hk1, if_pos hk2]
        cases hy : r.y.getLast? with
        | none =>
          have : r.y ≠ [] := h (color, r) (List.mem_cons_self _ _) hk2
          simp [List.getLast?_eq_none_iff] at hy
          exact absurd hy this
        | some v => exact ih _ hrest
      · simp only [plot_data, if_neg hk1, if_neg hk2]
        exact ih _ hrest

lemma expectedCalls_of_region (c : String) (r : ChannelRecord)
    (hk : r.kind = "rectangle" ∨ r.kind = "ellipse") :
    expectedCalls c r = [SinkCall.region c (snipped r.time r.average)] := by
  simp [expectedCalls, if_pos hk]

lemma expectedCalls_of_line (c : String) (r : ChannelRecord) (v : List Q)
    (hk1 : ¬(r.kind = "rectangle" ∨ r.kind = "ellipse")) (hk2 : r.kind = "line")
    (hy : r.y.getLast? = some v) :
    expectedCalls c r = [SinkCall.profile c v] := by
  simp [expectedCalls, if_neg hk1, if_pos hk2, hy]

lemma expectedCalls_of_line_empty (c : String) (r : ChannelRecord)
    (hk1 : ¬(r.kind = "rectangle" ∨ r.kind = "ellipse")) (hk2 : r.kind = "line")
    (hy : r.y.getLast? = none) :
    expectedCalls c r = [] := by
  simp [expectedCalls, if_neg hk1, if_pos hk2, hy]

lemma expectedCalls_of_unknown (c : String) (r : ChannelRecord)
    (hk1 : ¬(r.kind = "rectangle" ∨ r.kind = "ellipse")) (hk2 : r.kind ≠ "line") :
    expectedCalls c r = [] := by
  simp [expectedCalls, if_neg hk1, if_neg hk2]

/-- Under the same condition, the `setData` calls made are exactly the
per-entry expected calls, in batch order. -/
lemma plot_data_calls (st : PlotState) (b : List (String × ChannelRecord))
    (h : ∀ p ∈ b, p.2.kind = "line" → p.2.y ≠ []) :
    (plot_data st b).calls = (b.map (fun p => expectedCalls p.1 p.2)).flatten := by
  induction b generalizing st with
  | nil => rfl
  | cons p rest ih =>
    obtain ⟨color, r⟩ := p
    have hrest : ∀ q ∈ rest, q.2.kind = "line" → q.2.y ≠ [] :=
      fun q hq => h q (List.mem_cons_of_mem _ hq)
    rw [List.map_cons, List.flatten_cons]
    by_cases hk1 : r.kind = "rectangle" ∨ r.kind = "ellipse"
    · rw [expectedCalls_of_region color r hk1]
      simp only [plot_data, if_pos hk1]
      rw [ih _ hrest]
      simp
    · by_cases hk2 : r.kind = "line"
      · cases hy : r.y.getLast? with
        | none =>
          exact absurd (List.getLast?_eq_none_iff.mp hy)
            (h (color, r) (List.mem_cons_self _ _) hk2)
        | some v =>
          rw [expectedCalls_of_line color r v hk1 hk2 hy]
          simp only [plot_data, if_neg hk1, if_pos hk2, hy]
          rw [ih _ hrest]
          simp
      · rw [expectedCalls_of_unknown color r hk1 hk2]
        simp only [plot_data, if_neg hk1, if_neg hk2]
        rw [ih _ hrest]
        simp

/-- The calls made for a single-entry batch, with no proviso: a line entry
with an empty history makes no call (the subscript raises first). -/
lemma plot_data_single_calls (st : PlotState) (c : String) (r : ChannelRecord) :
    (plot_data st [(c, r)]).calls = expectedCalls c r := by
  by_cases hk1 : r.kind = "rectangle" ∨ r.kind = "ellipse"
  · rw [expectedCalls_of_region c r hk1]
    simp [plot_data, if_pos hk1]
  · by_cases hk2 : r.kind = "line"
    · cases hy : r.y.getLast? with
      | none =>
        rw [expectedCalls_of_line_empty c r hk1 hk2 hy]
        simp [plot_data, if_neg hk1, if_pos hk2, hy]
      | some v =>
        rw [expectedCalls_of_line c r v hk1 hk2 hy]
        simp [plot_data, if_neg hk1, if_pos hk2, hy]
    · rw [expectedCalls_of_unknown c r hk1 hk2]
      simp [plot_data, if_neg hk1, if_neg hk2]

/-- Keys outside the batch keep their curve data through routing. -/
lemma plot_data_getEntry_not_mem (st : PlotState) (b : List (String × ChannelRecord))
    (c : String) (hc : c ∉ b.map Prod.fst) :
    getEntry c (plot_data st b).state.region_curves = getEntry c st.region_curves
    ∧ getEntry c (plot_data st b).state.profile_curves = getEntry c st.profile_curves := by
  induction b generalizing st with
  | nil => exact ⟨rfl, rfl⟩
  | cons p rest ih =>
    obtain ⟨color, r⟩ := p
    simp only [List.map_cons, List.mem_cons] at hc
    push_neg at hc
    obtain ⟨hne, hrest⟩ := hc
    by_cases hk1 : r.kind = "rectangle" ∨ r.kind = "ellipse"
    · simp only [plot_data, if_pos hk1]
      have h2 := ih
        (if color ∈ (add_curve_region color st).dead then add_curve_region color st
        else { add_curve_region color st with
               region_curves := setEntry color (snipped r.time r.average)
                 (add_curve_region color st).region_curves }) hrest
      refine ⟨h2.1.trans ?_, h2.2.trans ?_⟩
      · split
        · exact add_curve_region_getEntry_other color c st hne
        · simp only []
          rw [getEntry_setEntry_other color c _ _ hne]
          exact add_curve_region_getEntry_other color c st hne
      · split <;> simp
    · by_cases hk2 : r.kind = "line"
      · simp only [plot_data, if_neg hk1, if_pos hk2]
        cases hy : r.y.getLast? with
        | none => exact ⟨by simp, by simpa using add_curve_profile_getEntry_other color c st hne⟩
        | some v =>
          have h2 := ih
            (if color ∈ (add_curve_profile color st).dead then add_curve_profile color st
            else { add_curve_profile color st with
                   profile_curves := setEntry color v
                     (add_curve_profile color st).profile_curves }) hrest
          refine ⟨h2.1.trans ?_, h2.2.trans ?_⟩
          · split <;> simp
          · split
            · exact add_curve_profile_getEntry_other color c st hne
            · simp only []
              rw [getEntry_setEntry_other color c _ _ hne]
              exact add_curve_profile_getEntry_other color c st hne
      · simp only [plot_data, if_neg hk1, if_neg hk2]
        exact ih st hrest

/-- After routing a batch with distinct keys and no aborting entry, a
region entry whose curve is live displays exactly the snipped pair. -/
lemma plot_data_final_region (st : PlotState) (b : List (String × ChannelRecord))
    (c : String) (r : ChannelRecord)
    (hnd : (b.map Prod.fst).Nodup)
    (hline : ∀ p ∈ b, p.2.kind = "line" → p.2.y ≠ [])
    (hmem : (c, r) ∈ b) (hdead : c ∉ st.dead)
    (hk : r.kind = "rectangle" ∨ r.kind = "ellipse") :
    getEntry c (plot_data st b).state.region_curves = some (snipped r.time r.average) := by
  induction b generalizing st with
  | nil => exact absurd hmem (List.not_mem_nil _)
  | cons p rest ih =>
    obtain ⟨color, r2⟩ := p
    simp only [List.map_cons, List.nodup_cons] at hnd
    have hrest : ∀ q ∈ rest, q.2.kind = "line" → q.2.y ≠ [] :=
      fun q hq => hline q (List.mem_cons_of_mem _ hq)
    rcases List.mem_cons.mp hmem with heq | hmemrest
    · obtain ⟨hc, hr⟩ := Prod.mk.injEq .. ▸ heq
      subst hc
      subst hr
      simp only [plot_data, if_pos hk]
      have hnot : c ∉ rest.map Prod.fst := hnd.1
      have hd1 : c ∉ (add_curve_region c st).dead := by simpa using hdead
      rw [(plot_data_getEntry_not_mem _ rest c hnot).1]
      rw [if_neg hd1]
      exact getEntry_setEntry_self c _ _
    · have hc2 : color ≠ c := by
        intro hh
        subst hh
        exact hnd.1 (List.mem_map.mpr ⟨(color, r), hmemrest, rfl⟩)
      by_cases hk1 : r2.kind = "rectangle" ∨ r2.kind = "ellipse"
      · simp only [plot_data, if_pos hk1]
        apply ih _ hnd.2 hrest hmemrest
        split <;> simpa using hdead
      · by_cases hk2 : r2.kind = "line"
        · cases hy : r2.y.getLast? with
          | none =>
            exact absurd (List.getLast?_eq_none_iff.mp hy)
              (hline (color, r2) (List.mem_cons_self _ _) hk2)
          | some v =>
            simp only [plot_data, if_neg hk1, if_pos hk2, hy]
            apply ih _ hnd.2 hrest hmemrest
            split <;> simpa using hdead
        · simp only [plot_data, if_neg hk1, if_neg hk2]
          exact ih _ hnd.2 hrest hmemrest hdead

/-- After routing a batch with distinct keys and no aborting entry, a line
entry whose curve is live displays exactly the last profile vector. -/
lemma plot_data_final_profile (st : PlotState) (b : List (String × ChannelRecord))
    (c : String) (r : ChannelRecord)
    (hnd : (b.map Prod.fst).Nodup)
    (hline : ∀ p ∈ b, p.2.kind = "line" → p.2.y ≠ [])
    (hmem : (c, r) ∈ b) (hdead : c ∉ st.dead)
    (hk : r.kind = "line") :
    getEntry c (plot_data st b).state.profile_curves = r.y.getLast? := by
  have hk1 : ¬(r.kind = "rectangle" ∨ r.kind = "ellipse") := by
    rw [hk]
    decide
  induction b generalizing st with
  | nil => exact absurd hmem (List.not_mem_nil _)
  | cons p rest ih =>
    obtain ⟨color, r2⟩ := p
    simp only [List.map_cons, List.nodup_cons] at hnd
    have hrest : ∀ q ∈ rest, q.2.kind = "line" → q.2.y ≠ [] :=
      fun q hq => hline q (List.mem_cons_of_mem _ hq)
    rcases List.mem_cons.mp hmem with heq | hmemrest
    · obtain ⟨hc, hr⟩ := Prod.mk.injEq .. ▸ heq
      subst hc
      subst hr
      cases hy : r.y.getLast? with
      | none =>
        exact absurd (List.getLast?_eq_none_iff.mp hy)
          (hline (c, r) (List.mem_cons_self _ _) hk)
      | some v =>
        simp only [plot_data, if_neg hk1, if_pos hk, hy]
        have hnot : c ∉ rest.map Prod.fst := hnd.1
        have hd1 : c ∉ (add_curve_profile c st).dead := by simpa using hdead
        rw [(plot_data_getEntry_not_mem _ rest c hnot).2]
        rw [if_neg hd1]
        exact getEntry_setEntry_self c _ _
    · have hc2 : color ≠ c := by
        intro hh
        subst hh
        exact hnd.1 (List.mem_map.mpr ⟨(color, r), hmemrest, rfl⟩)
      by_cases hj1 : r2.kind = "rectangle" ∨ r2.kind = "ellipse"
      · simp only [plot_data, if_pos hj1]
        apply ih _ hnd.2 hrest hmemrest
        split <;> simpa using hdead
      · by_cases hj2 : r2.kind = "line"
        · cases hy : r2.y.getLast? with
          | none =>
            exact absurd (List.getLast?_eq_none_iff.mp hy)
              (hline (color, r2) (List.mem_cons_self _ _) hj2)
          | some v =>
            simp only [plot_data, if_neg hj1, if_pos hj2, hy]
            apply ih _ hnd.2 hrest hmemrest
            split <;> simpa using hdead
        · simp only [plot_data, if_neg hj1, if_neg hj2]
          exact ih _ hnd.2 hrest hmemrest hdead

/-! ### Concrete fixtures used by the witnesses -/

/-- An empty routing state: no curves, no stale keys, empty registry, empty log. -/
def st0 : PlotState := ⟨[], [], [], [], []⟩

/-- A region record with mismatched series lengths (3 times, 2 averages). -/
def recRect : ChannelRecord := ⟨"rectangle", [0, 1, 2], [5, 6], []⟩

/-- An ellipse-kind region record. -/
def recEll : ChannelRecord := ⟨"ellipse", [0, 1], [7, 8], []⟩

/-- A line record with a two-snapshot profile history. -/
def recLine : ChannelRecord := ⟨"line", [], [], [[1], [2, 3]]⟩

/-- A record with an unrecognized kind. -/
def recBlob : ChannelRecord := ⟨"blob", [0], [1], [[2]]⟩

/-- A record with the literal kind string `"region"`. -/
def recRegionKind : ChannelRecord := ⟨"region", [0], [1], [[2]]⟩

/-! ### Claims -/

/-- Claim C1: for every region-kind plot update with `time` of length m and
`average` of length n, the data handed to the curve is the pair of the two
inputs truncated to length `min m n` — their `min m n`-element prefixes,
used unchanged — and the length mismatch is resolved without raising. -/
theorem C1_region_update_truncates (st : PlotState) (c : String) (r : ChannelRecord)
    (hk : r.kind = "rectangle" ∨ r.kind = "ellipse") :
    (plot_data st [(c, r)]).calls
      = [SinkCall.region c (r.time.take (min r.time.length r.average.length),
                            r.average.take (min r.time.length r.average.length))]
    ∧ (r.time.take (min r.time.length r.average.length)).length
        = min r.time.length r.average.length
    ∧ (r.average.take (min r.time.length r.average.length)).length
        = min r.time.length r.average.length
    ∧ (∀ i, i < min r.time.length r.average.length →
        (r.time.take (min r.time.length r.average.length))[i]? = r.time[i]?)
    ∧ (∀ i, i < min r.time.length r.average.length →
        (r.average.take (min r.time.length r.average.length))[i]? = r.average[i]?)
    ∧ (plot_data st [(c, r)]).err = none := by
  refine ⟨?_, ?_, ?_, ?_, ?_, ?_⟩
  · rw [plot_data_single_calls, expectedCalls_of_region c r hk, snipped_eq]
  · rw [List.length_take]
    omega
  · rw [List.length_take]
    omega
  · intro i hi
    exact List.getElem?_take_of_lt hi
  · intro i hi
    exact List.getElem?_take_of_lt hi
  · apply plot_data_err_none
    intro p hp hline
    rcases List.mem_singleton.mp hp with rfl
    rcases hk with hk | hk <;> rw [hk] at hline <;> exact absurd hline (by decide)

/-- Witness for C1 at a concrete input: a rectangle record with 3
timestamps and 2 averages is rendered as the two 2-element prefixes. -/
theorem C1_region_update_truncates_witness :
    (recRect.kind = "rectangle" ∨ recRect.kind = "ellipse")
    ∧ ((plot_data st0 [("red", recRect)]).calls
        = [SinkCall.region "red"
            (recRect.time.take (min recRect.time.length recRect.average.length),
             recRect.average.take (min recRect.time.length recRect.average.length))]
      ∧ (recRect.time.take (min recRect.time.length recRect.average.length)).length
          = min recRect.time.length recRect.average.length
      ∧ (recRect.average.take (min recRect.time.length recRect.average.length)).length
          = min recRect.time.length recRect.average.length
      ∧ (∀ i, i < min recRect.time.length recRect.average.length →
          (recRect.time.take (min recRect.time.length recRect.average.length))[i]?
            = recRect.time[i]?)
      ∧ (∀ i, i < min recRect.time.length recRect.average.length →
          (recRect.average.take (min recRect.time.length recRect.average.length))[i]?
            = recRect.average[i]?)
      ∧ (plot_data st0 [("red", recRect)]).err = none) :=
  ⟨Or.inl rfl, C1_region_update_truncates st0 "red" recRect (Or.inl rfl)⟩

/-- Claim C6: a line-kind update with a non-empty history `[v1, ..., vk]`
hands exactly `vk` to the profile curve, and nothing else. -/
theorem C6_profile_renders_last_snapshot (st : PlotState) (c : String) (r : ChannelRecord)
    (hk : r.kind = "line") (hy : r.y ≠ []) :
    (plot_data st [(c, r)]).calls = [SinkCall.profile c (r.y.getLast hy)]
    ∧ (plot_data st [(c, r)]).err = none := by
  have hk1 : ¬(r.kind = "rectangle" ∨ r.kind = "ellipse") := by
    rw [hk]
    decide
  constructor
  · rw [plot_data_single_calls,
      expectedCalls_of_line c r (r.y.getLast hy) hk1 hk (List.getLast?_eq_getLast r.y hy)]
  · apply plot_data_err_none
    intro p hp _
    rcases List.mem_singleton.mp hp with rfl
    exact hy

/-- Witness for C6 at a concrete input: of the history `[[1], [2, 3]]`
only `[2, 3]` is handed to the profile curve. -/
theorem C6_profile_renders_last_snapshot_witness :
    (recLine.kind = "line" ∧ recLine.y ≠ [])
    ∧ ((plot_data st0 [("blue", recLine)]).calls
        = [SinkCall.profile "blue" (recLine.y.getLast (by decide))]
      ∧ (plot_data st0 [("blue", recLine)]).err = none) :=
  ⟨⟨rfl, by decide⟩, C6_profile_renders_last_snapshot st0 "blue" recLine rfl (by decide)⟩

/-- Claim C8: routing has no side effect outside the plot sinks' curves:
the analysis worker's channel-data mapping (and likewise the stale-key
set and the log) is unchanged by `plot_data`; the input batch is an
immutable value in this embedding, matching a source body that only reads
from it. -/
theorem C8_plot_data_preserves_registry (st : PlotState) (b : List (String × ChannelRecord)) :
    (plot_data st b).state.registry = st.registry
    ∧ (plot_data st b).state.dead = st.dead
    ∧ (plot_data st b).state.log = st.log := by
  obtain ⟨h1, h2, h3⟩ := plot_data_frame st b
  exact ⟨h2, h1, h3⟩

/-- Claim C9: the region category is exactly the kind strings
`"rectangle"` and `"ellipse"`, the line category exactly `"line"`, and a
record whose kind is the literal `"region"` matches neither branch: it is
dropped with no call, no state change and no error. -/
theorem C9_kind_literals_exact (st : PlotState) (c : String) (r : ChannelRecord)
    (hy : r.y ≠ []) :
    ((∃ d, (plot_data st [(c, r)]).calls = [SinkCall.region c d])
        ↔ (r.kind = "rectangle" ∨ r.kind = "ellipse"))
    ∧ ((∃ v, (plot_data st [(c, r)]).calls = [SinkCall.profile c v]) ↔ r.kind = "line")
    ∧ (r.kind = "region" → plot_data st [(c, r)] = ⟨st, [], none⟩) := by
  have hcalls := plot_data_single_calls st c r
  by_cases hk1 : r.kind = "rectangle" ∨ r.kind = "ellipse"
  · rw [expectedCalls_of_region c r hk1] at hcalls
    refine ⟨⟨fun _ => hk1, fun _ => ⟨_, hcalls⟩⟩, ⟨fun h => ?_, fun h => ?_⟩, fun h => ?_⟩
    · obtain ⟨v, hv⟩ := h
      rw [hcalls] at hv
      simp at hv
    · rw [h] at hk1
      exact absurd hk1 (by decide)
    · rw [h] at hk1
      exact absurd hk1 (by decide)
  · by_cases hk2 : r.kind = "line"
    · rw [expectedCalls_of_line c r (r.y.getLast hy) hk1 hk2
        (List.getLast?_eq_getLast r.y hy)] at hcalls
      refine ⟨⟨fun h => ?_, fun h => absurd h hk1⟩, ⟨fun _ => hk2, fun _ => ⟨_, hcalls⟩⟩,
        fun h => ?_⟩
      · obtain ⟨d, hd⟩ := h
        rw [hcalls] at hd
        simp at hd
      · rw [h] at hk2
        exact absurd hk2 (by decide)
    · rw [expectedCalls_of_unknown c r hk1 hk2] at hcalls
      refine ⟨⟨fun h => ?_, fun h => absurd h hk1⟩, ⟨fun h => ?_, fun h => absurd h hk2⟩,
        fun _ => ?_⟩
      · obtain ⟨d, hd⟩ := h
        rw [hcalls] at hd
        simp at hd
      · obtain ⟨v, hv⟩ := h
        rw [hcalls] at hv
        simp at hv
      · simp [plot_data, if_neg hk1, if_neg hk2]

/-- Witness for C9 at a concrete input: a record with kind `"region"` is
silently dropped, while its rectangle/ellipse/line reroutings are not. -/
theorem C9_kind_literals_exact_witness :
    (recRegionKind.y ≠ [])
    ∧ (((∃ d, (plot_data st0 [("red", recRegionKind)]).calls = [SinkCall.region "red" d])
          ↔ (recRegionKind.kind = "rectangle" ∨ recRegionKind.kind = "ellipse"))
      ∧ ((∃ v, (plot_data st0 [("red", recRegionKind)]).calls = [SinkCall.profile "red" v])
          ↔ recRegionKind.kind = "line")
      ∧ (recRegionKind.kind = "region" →
          plot_data st0 [("red", recRegionKind)] = ⟨st0, [], none⟩)) :=
  ⟨by decide, C9_kind_literals_exact st0 "red" recRegionKind (by decide)⟩

/-- Claim C3: when exactly one key's curve is stale (its `setData` raises
RuntimeError), routing still updates the curve of every other key in the
batch, and no failure propagates to the caller. -/
theorem C3_one_stale_sink_does_not_block (st : PlotState) (b : List (String × ChannelRecord))
    (k0 : String)
    (hdead : st.dead = [k0])
    (hmem : k0 ∈ b.map Prod.fst)
    (hnd : (b.map Prod.fst).Nodup)
    (hline : ∀ p ∈ b, p.2.kind = "line" → p.2.y ≠ []) :
    (plot_data st b).err = none
    ∧ ∀ p ∈ b, p.1 ≠ k0 →
        ((p.2.kind = "rectangle" ∨ p.2.kind = "ellipse") →
          getEntry p.1 (plot_data st b).state.region_curves
            = some (snipped p.2.time p.2.average))
        ∧ (p.2.kind = "line" →
          getEntry p.1 (plot_data st b).state.profile_curves = p.2.y.getLast?) := by
  refine ⟨plot_data_err_none st b hline, fun p hp hne => ⟨fun hk => ?_, fun hk => ?_⟩⟩
  · exact plot_data_final_region st b p.1 p.2 hnd hline hp (by simp [hdead, hne]) hk
  · exact plot_data_final_profile st b p.1 p.2 hnd hline hp (by simp [hdead, hne]) hk

/-- The routing state with the curve for `"red"` destroyed. -/
def stRedDead : PlotState := ⟨[], [], ["red"], [], []⟩

/-- Witness for C3 at a concrete input: with `"red"` stale, the batch
`[red ↦ rectangle, blue ↦ ellipse]` still updates `"blue"` and returns
without error. -/
theorem C3_one_stale_sink_does_not_block_witness :
    (stRedDead.dead = ["red"]
      ∧ "red" ∈ ([("red", recRect), ("blue", recEll)].map Prod.fst)
      ∧ (([("red", recRect), ("blue", recEll)].map Prod.fst)).Nodup
      ∧ (∀ p ∈ [("red", recRect), ("blue", recEll)], p.2.kind = "line" → p.2.y ≠ []))
    ∧ ((plot_data stRedDead [("red", recRect), ("blue", recEll)]).err = none
      ∧ ∀ p ∈ [("red", recRect), ("blue", recEll)], p.1 ≠ "red" →
          ((p.2.kind = "rectangle" ∨ p.2.kind = "ellipse") →
            getEntry p.1 (plot_data stRedDead
                [("red", recRect), ("blue", recEll)]).state.region_curves
              = some (snipped p.2.time p.2.average))
          ∧ (p.2.kind = "line" →
            getEntry p.1 (plot_data stRedDead
                [("red", recRect), ("blue", recEll)]).state.profile_curves
              = p.2.y.getLast?)) :=
  ⟨⟨rfl, by decide, by decide, by decide⟩,
    C3_one_stale_sink_does_not_block stRedDead [("red", recRect), ("blue", recEll)] "red"
      rfl (by decide) (by decide) (by decide)⟩

/-! ### Call-count lemmas for C4 -/

lemma filter_expectedCalls_self (c : String) (r : ChannelRecord) :
    (expectedCalls c r).filter (fun cl => callKey cl == c) = expectedCalls c r := by
  unfold expectedCalls
  split
  · simp [callKey]
  · split
    · cases r.y.getLast? <;> simp [callKey]
    · simp

lemma filter_expectedCalls_other (c c2 : String) (r : ChannelRecord) (h : c ≠ c2) :
    (expectedCalls c r).filter (fun cl => callKey cl == c2) = [] := by
  unfold expectedCalls
  split
  · simp [callKey, h]
  · split
    · cases r.y.getLast? <;> simp [callKey, h]
    · simp

lemma flatten_filter_not_mem (b : List (String × ChannelRecord)) (c : String)
    (hc : c ∉ b.map Prod.fst) :
    ((b.map (fun p => expectedCalls p.1 p.2)).flatten.filter
      (fun cl => callKey cl == c)) = [] := by
  induction b with
  | nil => rfl
  | cons p rest ih =>
    obtain ⟨c1, r1⟩ := p
    simp only [List.map_cons, List.mem_cons] at hc
    push_neg at hc
    rw [List.map_cons, List.flatten_cons, List.filter_append,
      filter_expectedCalls_other c1 c r1 (Ne.symm hc.1), ih hc.2]
    rfl

lemma flatten_filter_mem (b : List (String × ChannelRecord)) (c : String) (r : ChannelRecord)
    (hnd : (b.map Prod.fst).Nodup) (hmem : (c, r) ∈ b) :
    ((b.map (fun p => expectedCalls p.1 p.2)).flatten.filter
      (fun cl => callKey cl == c)) = expectedCalls c r := by
  induction b with
  | nil => exact absurd hmem (List.not_mem_nil _)
  | cons p rest ih =>
    obtain ⟨c1, r1⟩ := p
    simp only [List.map_cons, List.nodup_cons] at hnd
    rw [List.map_cons, List.flatten_cons, List.filter_append]
    rcases List.mem_cons.mp hmem with heq | hmemrest
    · obtain ⟨hc, hr⟩ := Prod.mk.injEq .. ▸ heq
      subst hc
      subst hr
      rw [filter_expectedCalls_self, flatten_filter_not_mem rest c hnd.1,
        List.append_nil]
    · have hc1 : c1 ≠ c := by
        intro hh
        subst hh
        exact hnd.1 (List.mem_map.mpr ⟨(c1, r), hmemrest, rfl⟩)
      rw [filter_expectedCalls_other c1 c r1 hc1, ih hnd.2 hmemrest, List.nil_append]

/-- Claim C4, amended: every key with a recognized kind gets exactly one
`setData` call, on the sink matching its kind and with the kind's payload;
a key with an unrecognized kind produces no call at all and is skipped
silently (nothing is logged — the source has no logging call), without
aborting the rest of the batch. -/
theorem C4_recognized_exactly_once (st : PlotState) (b : List (String × ChannelRecord))
    (hnd : (b.map Prod.fst).Nodup)
    (hline : ∀ p ∈ b, p.2.kind = "line" → p.2.y ≠ []) :
    (plot_data st b).err = none
    ∧ (plot_data st b).state.log = st.log
    ∧ ∀ p ∈ b, (plot_data st b).calls.filter (fun cl => callKey cl == p.1)
        = expectedCalls p.1 p.2 := by
  refine ⟨plot_data_err_none st b hline, (plot_data_frame st b).2.2, fun p hp => ?_⟩
  rw [plot_data_calls st b hline]
  exact flatten_filter_mem b p.1 p.2 hnd hp

/-- Witness for C4 at a concrete input: a batch with a rectangle, a line
and an unrecognized kind; the first two get exactly one call each, the
third none and no log entry. -/
theorem C4_recognized_exactly_once_witness :
    ((([("red", recRect), ("blue", recLine), ("grn", recBlob)].map Prod.fst)).Nodup
      ∧ (∀ p ∈ [("red", recRect), ("blue", recLine), ("grn", recBlob)],
          p.2.kind = "line" → p.2.y ≠ []))
    ∧ ((plot_data st0 [("red", recRect), ("blue", recLine), ("grn", recBlob)]).err = none
      ∧ (plot_data st0 [("red", recRect), ("blue", recLine), ("grn", recBlob)]).state.log
          = st0.log
      ∧ ∀ p ∈ [("red", recRect), ("blue", recLine), ("grn", recBlob)],
          (plot_data st0 [("red", recRect), ("blue", recLine), ("grn", recBlob)]).calls.filter
              (fun cl => callKey cl == p.1)
            = expectedCalls p.1 p.2) :=
  ⟨⟨by decide, by decide⟩,
    C4_recognized_exactly_once st0 [("red", recRect), ("blue", recLine), ("grn", recBlob)]
      (by decide) (by decide)⟩

/-- Counterexample for C4 as stated: the claim says an unrecognized kind
"is rejected and logged"; routing a batch whose single record has the
unrecognized kind `"blob"` leaves the state — including its (empty) log —
completely unchanged: nothing is ever logged by `plot_data`. -/
theorem C4_unrecognized_is_not_logged :
    plot_data st0 [("red", recBlob)] = ⟨st0, [], none⟩
    ∧ (plot_data st0 [("red", recBlob)]).state.log = [] := by
  exact ⟨rfl, rfl⟩

/-- Counterexample for C2 as stated: removing a key absent from the
plot's curve mapping does not succeed as a no-op — `plot_items.pop(key)`
raises KeyError (here on the empty state). -/
theorem C2_absent_key_raises :
    remove_line st0 "line" "red" = (st0, some PyErr.keyError) := rfl

/-- Claim C2, amended: calling `remove_line` twice in succession leaves
the curve mappings and the registry in the same state as calling it once —
the second call mutates nothing — but the second (and any) removal of an
absent key raises KeyError instead of succeeding as a silent no-op. -/
theorem C2_remove_line_second_call (st : PlotState) (kind color : String)
    (hr : (st.region_curves.map Prod.fst).Nodup)
    (hp : (st.profile_curves.map Prod.fst).Nodup) :
    (remove_line (remove_line st kind color).1 kind color).1 = (remove_line st kind color).1
    ∧ (remove_line (remove_line st kind color).1 kind color).2 = some PyErr.keyError
    ∧ (kind = "line" → getEntry color st.profile_curves = none →
        remove_line st kind color = (st, some PyErr.keyError))
    ∧ (kind ≠ "line" → getEntry color st.region_curves = none →
        remove_line st kind color = (st, some PyErr.keyError)) := by
  refine ⟨?_, ?_, ?_, ?_⟩
  · by_cases hk : kind = "line"
    · subst hk
      cases h1 : getEntry color st.profile_curves with
      | none => simp [remove_line, h1]
      | some cv =>
        cases h2 : getEntry color st.registry with
        | none => simp [remove_line, h1, h2, getEntry_dropEntry_self color _ hp]
        | some rv => simp [remove_line, h1, h2, getEntry_dropEntry_self color _ hp]
    · cases h1 : getEntry color st.region_curves with
      | none => simp [remove_line, hk, h1]
      | some cv =>
        cases h2 : getEntry color st.registry with
        | none => simp [remove_line, hk, h1, h2, getEntry_dropEntry_self color _ hr]
        | some rv => simp [remove_line, hk, h1, h2, getEntry_dropEntry_self color _ hr]
  · by_cases hk : kind = "line"
    · subst hk
      cases h1 : getEntry color st.profile_curves with
      | none => simp [remove_line, h1]
      | some cv =>
        cases h2 : getEntry color st.registry with
        | none => simp [remove_line, h1, h2, getEntry_dropEntry_self color _ hp]
        | some rv => simp [remove_line, h1, h2, getEntry_dropEntry_self color _ hp]
    · cases h1 : getEntry color st.region_curves with
      | none => simp [remove_line, hk, h1]
      | some cv =>
        cases h2 : getEntry color st.registry with
        | none => simp [remove_line, hk, h1, h2, getEntry_dropEntry_self color _ hr]
        | some rv => simp [remove_line, hk, h1, h2, getEntry_dropEntry_self color _ hr]
  · intro hk h1
    subst hk
    simp [remove_line, h1]
  · intro hk h1
    simp [remove_line, hk, h1]

/-- A state with one profile curve and one registry entry for `"red"`. -/
def stC2 : PlotState := ⟨[], [("red", [1])], [], [("red", recLine)], []⟩

/-- Witness for the amended C2 at a concrete input: one successful removal
of `"red"`, after which the second call changes nothing and raises
KeyError. -/
theorem C2_remove_line_second_call_witness :
    ((stC2.region_curves.map Prod.fst).Nodup ∧ (stC2.profile_curves.map Prod.fst).Nodup)
    ∧ ((remove_line (remove_line stC2 "line" "red").1 "line" "red").1
        = (remove_line stC2 "line" "red").1
      ∧ (remove_line (remove_line stC2 "line" "red").1 "line" "red").2
          = some PyErr.keyError
      ∧ ("line" = "line" → getEntry "red" stC2.profile_curves = none →
          remove_line stC2 "line" "red" = (stC2, some PyErr.keyError))
      ∧ ("line" ≠ "line" → getEntry "red" stC2.region_curves = none →
          remove_line stC2 "line" "red" = (stC2, some PyErr.keyError))) :=
  ⟨⟨by decide, by decide⟩,
    C2_remove_line_second_call stC2 "line" "red" (by decide) (by decide)⟩

/-! ### Settings claims -/

/-- Re-converting a value stored with its own type tag gives it back. -/
lemma convert_setting_type_name (v : PyVal) :
    convert_setting v (type_name v) = Except.ok v := by
  cases v <;> rfl

lemma load_group_save (d : List (String × PyVal)) :
    load_group (d.map fun kv => (kv.1, (kv.2, type_name kv.2))) = Except.ok d := by
  induction d with
  | nil => rfl
  | cons kv rest ih =>
    obtain ⟨k, v⟩ := kv
    simp [load_group, convert_setting_type_name, ih]

/-- Claim C5: loading after saving returns the original settings mapping,
for every group and setting and every leaf value of the settings value
space (in particular the supported types bool, int, float and str). -/
theorem C5_settings_round_trip (s : Settings) :
    load_settings (save_settings s) = Except.ok s := by
  induction s with
  | nil => rfl
  | cons g rest ih =>
    obtain ⟨gname, d⟩ := g
    simp only [save_settings, List.map_cons]
    simp only [save_settings] at ih
    simp only [load_settings, load_group_save d, ih]

/-- Claim C10: a stored value that is not a string after JSON decoding is
returned unchanged, whatever its recorded type tag says — the tag-based
conversion only applies to string values. -/
theorem C10_non_string_value_unchanged (v : PyVal) (t : String)
    (hv : ∀ s, v ≠ PyVal.str s) :
    convert_setting v t = Except.ok v := by
  cases v with
  | str s => exact absurd rfl (hv s)
  | bool b => rfl
  | int n => rfl
  | float q => rfl
  | pynone => rfl

/-- Witness for C10 at a concrete input: the boolean `True` stored under
the (wrong) tag `"int"` is returned unchanged. -/
theorem C10_non_string_value_unchanged_witness :
    (∀ s, PyVal.bool true ≠ PyVal.str s)
    ∧ convert_setting (PyVal.bool true) "int" = Except.ok (PyVal.bool true) :=
  ⟨fun _ h => PyVal.noConfusion h,
    C10_non_string_value_unchanged (PyVal.bool true) "int" (fun _ h => PyVal.noConfusion h)⟩

/-- Counterexample for C7 as stated: the claim says a record tagged `int`
has its (string) value "converted to that type"; the code instead calls
`literal_eval`, whose result type follows the literal, not the tag — the
string `"True"` under tag `"int"` comes back as the boolean `True`, not as
an int. -/
theorem C7_int_tag_yields_bool :
    convert_setting (PyVal.str "True") "int" = Except.ok (PyVal.bool true) := rfl

/-- Claim C7, amended: for a stored string value, tags `str`/`string`
keep the string; tags `bool`, `int` and `float` hand the string to
`literal_eval`, whose result — of whatever type the literal denotes —
is used, and whose failures propagate; for any other tag a best-effort
`literal_eval` is attempted, a ValueError failure keeps the raw string,
and a SyntaxError propagates (only ValueError is caught). -/
theorem C7_tag_dispatch (t s : String)
    (ht : t ∉ (["bool", "str", "string", "int", "float"] : List String)) :
    convert_setting (PyVal.str s) "str" = Except.ok (PyVal.str s)
    ∧ convert_setting (PyVal.str s) "string" = Except.ok (PyVal.str s)
    ∧ convert_setting (PyVal.str s) "bool" = litToExcept (literal_eval s)
    ∧ convert_setting (PyVal.str s) "int" = litToExcept (literal_eval s)
    ∧ convert_setting (PyVal.str s) "float" = litToExcept (literal_eval s)
    ∧ convert_setting (PyVal.str s) t
        = (match literal_eval s with
           | LitResult.ok w => Except.ok w
           | LitResult.valueError => Except.ok (PyVal.str s)
           | LitResult.stxError => Except.error PyErr.stxError)
    ∧ convert_setting (PyVal.str "True") "bool" = Except.ok (PyVal.bool true)
    ∧ convert_setting (PyVal.str "12") "int" = Except.ok (PyVal.int 12)
    ∧ convert_setting (PyVal.str "1.5") "float" = Except.ok (PyVal.float (3 / 2))
    ∧ convert_setting (PyVal.str "hello") t = Except.ok (PyVal.str "hello")
    ∧ convert_setting (PyVal.str "a b") t = Except.error PyErr.stxError := by
  simp only [List.mem_cons, List.not_mem_nil, or_false] at ht
  push_neg at ht
  obtain ⟨h1, h2, h3, h4, h5⟩ := ht
  have hn1 : ¬(t = "string" ∨ t = "str") := by
    rintro (h | h)
    exacts [h3 h, h2 h]
  have hn2 : ¬(t = "float" ∨ t = "int") := by
    rintro (h | h)
    exacts [h5 h, h4 h]
  refine ⟨rfl, rfl, rfl, rfl, rfl, ?_, rfl, rfl, ?_, ?_, ?_⟩
  · simp only [convert_setting, if_neg h1, if_neg hn1, if_neg hn2]
  · have h9 : convert_setting (PyVal.str "1.5") "float"
        = Except.ok (PyVal.float ((1 : Q) + 5 / 10 ^ 1)) := rfl
    rw [h9]
    norm_num
  · simp only [convert_setting, if_neg h1, if_neg hn1, if_neg hn2]
    rfl
  · simp only [convert_setting, if_neg h1, if_neg hn1, if_neg hn2]
    rfl

/-- Witness for the amended C7 at a concrete input: tag `"custom"`. -/
theorem C7_tag_dispatch_witness :
    (("custom" : String) ∉ (["bool", "str", "string", "int", "float"] : List String))
    ∧ (convert_setting (PyVal.str "7") "str" = Except.ok (PyVal.str "7")
      ∧ convert_setting (PyVal.str "7") "string" = Except.ok (PyVal.str "7")
      ∧ convert_setting (PyVal.str "7") "bool" = litToExcept (literal_eval "7")
      ∧ convert_setting (PyVal.str "7") "int" = litToExcept (literal_eval "7")
      ∧ convert_setting (PyVal.str "7") "float" = litToExcept (literal_eval "7")
      ∧ convert_setting (PyVal.str "7") "custom"
          = (match literal_eval "7" with
             | LitResult.ok w => Except.ok w
             | LitResult.valueError => Except.ok (PyVal.str "7")
             | LitResult.stxError => Except.error PyErr.stxError)
      ∧ convert_setting (PyVal.str "True") "bool" = Except.ok (PyVal.bool true)
      ∧ convert_setting (PyVal.str "12") "int" = Except.ok (PyVal.int 12)
      ∧ convert_setting (PyVal.str "1.5") "float" = Except.ok (PyVal.float (3 / 2))
      ∧ convert_setting (PyVal.str "hello") "custom" = Except.ok (PyVal.str "hello")
      ∧ convert_setting (PyVal.str "a b") "custom" = Except.error PyErr.stxError) :=
  ⟨by decide, C7_tag_dispatch "custom" "7" (by decide)⟩

end FRHEED
